import Mathlib

/-!
Verification development for the `ticktock` repository fragment:
a generated rustdoc search index (`src/search-index.js`) together with a
README excerpt.  The JavaScript file is a data file: a `var` declaration,
one assignment of a JSON-like object into `searchIndex["ticktock"]`, and a
call `initSearch(searchIndex)`.  We embed the JSON value, the script's
statement list and the README text literally, and settle the claims about
their shape and contents.
-/

/-- A small model of the JSON-like values occurring in `search-index.js`.
All numbers in the file are natural numbers (kind codes and parent
indices), so `num` carries a `Nat`. -/
inductive Json where
  | null : Json
  | num : Nat → Json
  | str : String → Json
  | arr : List Json → Json
  | obj : List (String × Json) → Json

/-- Shorthand for the `\x7b"name": s\x7d` objects used for input/output types. -/
def nameObj (s : String) : Json := Json.obj [("name", Json.str s)]

/-- Shorthand for a signature object with inputs and an output. -/
def sigObj (ins : List String) (out : String) : Json :=
  Json.obj [("inputs", Json.arr (ins.map nameObj)), ("output", nameObj out)]

/-- The `items` array of `searchIndex["ticktock"]`, transcribed record by
record from line 2 of `src/search-index.js`. -/
def ticktockItems : List Json := [
  Json.arr [Json.num 0, Json.str "clock", Json.str "ticktock",
    Json.str "Frame clock module", Json.null, Json.null],
  Json.arr [Json.num 3, Json.str "Clock", Json.str "ticktock::clock",
    Json.str "Clock structure.", Json.null, Json.null],
  Json.arr [Json.num 3, Json.str "ClockIter", Json.str "",
    Json.str "A clock iterator", Json.null, Json.null],
  Json.arr [Json.num 3, Json.str "ClockIterRelative", Json.str "",
    Json.str "Similar to `ClockIter`, but returns a relative time instead.",
    Json.null, Json.null],
  Json.arr [Json.num 11, Json.str "new", Json.str "",
    Json.str "Creates a new clock.", Json.num 0,
    sigObj ["duration"] "clock"],
  Json.arr [Json.num 11, Json.str "new_with_start_time", Json.str "",
    Json.str "Creates a new clock with a specified start time", Json.num 0,
    sigObj ["duration", "instant"] "clock"],
  Json.arr [Json.num 11, Json.str "synced", Json.str "",
    Json.str "Creates a new clock with a different tick length that is synced to\nthe original clock",
    Json.num 0, sigObj ["clock", "duration"] "clock"],
  Json.arr [Json.num 11, Json.str "start", Json.str "",
    Json.str "Get start time", Json.num 0,
    sigObj ["clock"] "instant"],
  Json.arr [Json.num 11, Json.str "wait_until_tick", Json.str "",
    Json.str "Waits for the next clock tick.", Json.num 0, Json.null],
  Json.arr [Json.num 11, Json.str "iter", Json.str "",
    Json.str "Creates a clock iterator.", Json.num 0,
    sigObj ["clock"] "clockiter"],
  Json.arr [Json.num 11, Json.str "rel_iter", Json.str "",
    Json.str "Create a relative clock iterator.", Json.num 0,
    sigObj ["clock"] "clockiterrelative"],
  Json.arr [Json.num 11, Json.str "next", Json.str "",
    Json.str "", Json.num 1, sigObj ["clockiter"] "option"],
  Json.arr [Json.num 11, Json.str "next", Json.str "",
    Json.str "", Json.num 2, sigObj ["clockiterrelative"] "option"],
  Json.arr [Json.num 0, Json.str "timer", Json.str "ticktock",
    Json.str "Non-selfupdating interval timers", Json.null, Json.null],
  Json.arr [Json.num 3, Json.str "Timer", Json.str "ticktock::timer",
    Json.str "Interval-timer", Json.null, Json.null],
  Json.arr [Json.num 11, Json.str "new", Json.str "",
    Json.str "Creates a new timer.", Json.num 3,
    sigObj ["duration"] "timer"],
  Json.arr [Json.num 11, Json.str "new_with_start_time", Json.str "",
    Json.str "Creates a new timer with a specific start time", Json.num 3,
    sigObj ["duration", "instant"] "timer"],
  Json.arr [Json.num 11, Json.str "has_fired", Json.str "",
    Json.str "Returns true if the timer has fired since the last time passed to\n`reset()`.",
    Json.num 3, sigObj ["timer", "instant"] "bool"],
  Json.arr [Json.num 11, Json.str "remaining", Json.str "",
    Json.str "Remaining time until the timer will fire again.", Json.num 3,
    sigObj ["timer", "instant"] "duration"],
  Json.arr [Json.num 11, Json.str "reset", Json.str "",
    Json.str "Notify the timer it has been executed.", Json.num 3,
    sigObj ["timer", "instant"] "u32"],
  Json.arr [Json.num 11, Json.str "handle", Json.str "",
    Json.str "Combines `has_fired()` and `reset()`.", Json.num 3,
    sigObj ["timer", "instant"] "bool"]]

/-- The `paths` array of `searchIndex["ticktock"]`. -/
def ticktockPaths : List Json := [
  Json.arr [Json.num 3, Json.str "Clock"],
  Json.arr [Json.num 3, Json.str "ClockIter"],
  Json.arr [Json.num 3, Json.str "ClockIterRelative"],
  Json.arr [Json.num 3, Json.str "Timer"]]

/-- The document object assigned to `searchIndex["ticktock"]`. -/
def searchIndexTicktock : Json :=
  Json.obj [("doc", Json.str "Timing module for frame-based applications"),
    ("items", Json.arr ticktockItems),
    ("paths", Json.arr ticktockPaths)]

/-- A decoded type-signature object: the input type names in order, and the
output type name when an `output` field is present. -/
structure Sig where
  inputs : List String
  output : Option String
deriving DecidableEq, Repr

/-- A decoded item record: the 6-tuple
(kind code, name, path, description, parent index, type-signature). -/
structure Item where
  kind : Nat
  name : String
  path : String
  desc : String
  parent : Option Nat
  sig : Option Sig
deriving DecidableEq, Repr

/-- A decoded entry of the `paths` array: a (kind code, type name) pair. -/
structure PathEntry where
  kind : Nat
  name : String
deriving DecidableEq, Repr

/-- Decode a `\x7b"name": s\x7d` object to the string `s`. -/
def decodeName : Json → Option String
  | Json.obj [("name", Json.str s)] => some s
  | _ => none

/-- Decode a type-signature object. -/
def decodeSig : Json → Option Sig
  | Json.obj [("inputs", Json.arr ins)] =>
      (ins.mapM decodeName).map (fun l => ⟨l, none⟩)
  | Json.obj [("inputs", Json.arr ins), ("output", out)] =>
      match ins.mapM decodeName, decodeName out with
      | some l, some o => some ⟨l, some o⟩
      | _, _ => none
  | _ => none

/-- Decode one item record. -/
def decodeItem : Json → Option Item
  | Json.arr [Json.num k, Json.str n, Json.str p, Json.str d, par, sg] =>
      match par, sg with
      | Json.null, Json.null => some ⟨k, n, p, d, none, none⟩
      | Json.null, s => (decodeSig s).map (fun sig => ⟨k, n, p, d, none, some sig⟩)
      | Json.num i, Json.null => some ⟨k, n, p, d, some i, none⟩
      | Json.num i, s => (decodeSig s).map (fun sig => ⟨k, n, p, d, some i, some sig⟩)
      | _, _ => none
  | _ => none

/-- Decode one `paths` entry. -/
def decodePath : Json → Option PathEntry
  | Json.arr [Json.num k, Json.str n] => some ⟨k, n⟩
  | _ => none

/-- The decoded item records of `searchIndex["ticktock"].items`. -/
def itemRecords : List Item := (ticktockItems.mapM decodeItem).getD []

/-- The decoded entries of `searchIndex["ticktock"].paths`. -/
def pathEntries : List PathEntry := (ticktockPaths.mapM decodePath).getD []

/-- Every raw item record decodes, and there are 21 of them. -/
theorem itemRecords_decode :
    (ticktockItems.mapM decodeItem).isSome = true ∧ itemRecords.length = 21 := by
  decide

/-- A statement of the `search-index.js` script. -/
inductive Stmt where
  | varDecl (varName : String) (value : Json)
  | indexAssign (varName key : String) (value : Json)
  | callStmt (fname arg : String)

/-- The three statements of `src/search-index.js`, in order:
`var searchIndex = \x7b\x7d;`, the assignment into `searchIndex["ticktock"]`,
and `initSearch(searchIndex);`. -/
def script : List Stmt := [
  Stmt.varDecl "searchIndex" (Json.obj []),
  Stmt.indexAssign "searchIndex" "ticktock" searchIndexTicktock,
  Stmt.callStmt "initSearch" "searchIndex"]

/-- The value assigned into the index by the script, when the script is a
declaration followed by one assignment followed by one call. -/
def assignedValue : List Stmt → Option Json
  | [Stmt.varDecl _ _, Stmt.indexAssign _ _ v, Stmt.callStmt _ _] => some v
  | _ => none

/-- The README excerpt shipped with the fragment, transcribed verbatim. -/
def readmeText : String :=
  "Frame-clock and timers\n======================\n\n`ticktock` makes it very easy to access frame-timing iterators to achieve\nconstant framerates:\n\n```rust\n// run with a constant framerate of 30 fps\nfor (tick, now) in Clock::framerate(30.0).iter() \x7b\n  // ...\n\x7d\n```\n\nSee the [documentation](https://docs.rs/ticktock) for details."

/-- Whether `pat` occurs as a contiguous sublist of the second argument. -/
def hasSubList (pat : List Char) : List Char → Bool
  | [] => pat.isEmpty
  | c :: rest => List.isPrefixOf pat (c :: rest) || hasSubList pat rest

/-- Whether `pat` occurs as a substring of `s`. -/
def hasSubstr (s pat : String) : Bool := hasSubList pat.data s.data

/-- Shape of a raw item record as the spec states it: a 6-element array of
(number, string, string, string, null-or-number, null-or-object). -/
def isItemShape : Json → Bool
  | Json.arr [Json.num _, Json.str _, Json.str _, Json.str _, par, sg] =>
      (match par with
        | Json.null => true
        | Json.num _ => true
        | _ => false) &&
      (match sg with
        | Json.null => true
        | Json.obj _ => true
        | _ => false)
  | _ => false

/-- Shape of the document object: a `doc` string, an `items` array whose
elements all have item-record shape, and a `paths` array. -/
def indexShapeOk : Json → Bool
  | Json.obj [("doc", Json.str _), ("items", Json.arr items), ("paths", Json.arr _)] =>
      items.all isItemShape
  | _ => false

/-- A flat `\x7b"name": s\x7d` object. -/
def isFlatName : Json → Bool
  | Json.obj [("name", Json.str _)] => true
  | _ => false

/-- A flat signature object: inputs are name objects of strings, and the
output (when present) is a name object of a string. -/
def isFlatSig : Json → Bool
  | Json.obj [("inputs", Json.arr ins)] => ins.all isFlatName
  | Json.obj [("inputs", Json.arr ins), ("output", out)] =>
      ins.all isFlatName && isFlatName out
  | _ => false

/-- A fully flat item record: only name/path/doc strings, a null-or-number
parent, and a null-or-flat signature; in particular no nested item list. -/
def isFlatItem : Json → Bool
  | Json.arr [Json.num _, Json.str _, Json.str _, Json.str _, par, sg] =>
      (match par with
        | Json.null => true
        | Json.num _ => true
        | _ => false) &&
      (match sg with
        | Json.null => true
        | s => isFlatSig s)
  | _ => false

/-- All arrays sitting one or two constructor levels below the top of an
item record (for the records at hand: the `inputs` arrays). -/
def nestedArrays : Json → List Json
  | Json.arr l => l.foldr (fun j acc =>
      match j with
      | Json.obj fields =>
          (fields.filterMap (fun p =>
            match p.2 with
            | Json.arr l2 => some (Json.arr l2)
            | _ => none)) ++ acc
      | Json.arr l2 => Json.arr l2 :: acc
      | _ => acc) []
  | _ => []

/-- Lowercase a string, character by character (ASCII letters). -/
def strLower (s : String) : String := String.mk (s.data.map Char.toLower)

set_option maxRecDepth 10000

/-- Claim C1: the script assigns into the index under the crate name
`ticktock` a document object with a free-text `doc` string, an `items`
array and a `paths` array, and every element of the `items` array is a
6-tuple of (number, string, string, string, null-or-number,
null-or-object). -/
theorem c1_index_record_shape :
    script.get? 1 = some (Stmt.indexAssign "searchIndex" "ticktock" searchIndexTicktock) ∧
    assignedValue script = some searchIndexTicktock ∧
    indexShapeOk searchIndexTicktock = true :=
  ⟨rfl, rfl, by decide⟩

/-- Claim C2, counterexample: the item record at index 6 is named `synced`
and its description contains a newline character, so not every description
is newline-free. -/
theorem c2_counterexample :
    (itemRecords.get? 6).map (fun it => (it.name, hasSubstr it.desc "\n")) =
      some ("synced", true) ∧
    itemRecords.all (fun it => !(hasSubstr it.desc "\n")) = false := by
  decide

/-- Claim C2, amended: every description is a single paragraph (no
description contains two consecutive newlines), and exactly the two
records `synced` and `has_fired` contain a single embedded newline from
line wrapping; all other descriptions contain none. -/
theorem c2_single_paragraph :
    (itemRecords.filter (fun it => hasSubstr it.desc "\n")).map Item.name =
      ["synced", "has_fired"] ∧
    itemRecords.all (fun it => !(hasSubstr it.desc "\n\n")) = true := by
  decide

/-- Claim C3, counterexample: `framerate` is invoked on `Clock` in the
README sample, yet no item record of the index is named `framerate` — so
it is false that every method name invoked in the sample has an item
record. -/
theorem c3_counterexample :
    hasSubstr readmeText "Clock::framerate(30.0).iter()" = true ∧
    itemRecords.all (fun it => it.name != "framerate") = true := by
  decide

/-- Claim C3, amended: of the two method names invoked on `Clock` in the
README sample, `iter` appears as a documented method of `Clock` (a kind-11
record whose parent index selects the `Clock` path entry), but `framerate`
appears in no item record of the index. -/
theorem c3_iter_documented_framerate_absent :
    (itemRecords.any (fun it =>
      it.name == "iter" && it.kind == 11 && it.parent == some (0 : Nat))) = true ∧
    (pathEntries.get? 0).map PathEntry.name = some "Clock" ∧
    itemRecords.all (fun it => it.name != "framerate") = true := by
  decide

/-- Claim C4: each of `Clock`, `ClockIter`, `ClockIterRelative` and
`Timer` appears both as a kind-3 (struct) item record and as a `paths`
entry, and the `paths` list consists of exactly those four entries. -/
theorem c4_four_types :
    (["Clock", "ClockIter", "ClockIterRelative", "Timer"].all (fun n =>
      itemRecords.any (fun it => it.kind == 3 && it.name == n) &&
      pathEntries.any (fun pe => pe.name == n))) = true ∧
    pathEntries = [⟨3, "Clock"⟩, ⟨3, "ClockIter"⟩, ⟨3, "ClockIterRelative"⟩,
      ⟨3, "Timer"⟩] := by
  decide

/-- Claim C5: the README excerpt contains a Rust code block with a
for-loop over `Clock::framerate(30.0).iter()` binding a `(tick, now)`
pair. -/
theorem c5_readme_sample :
    hasSubstr readmeText "```rust" = true ∧
    hasSubstr readmeText "for (tick, now) in Clock::framerate(30.0).iter() \x7b" = true := by
  decide

/-- Claim C6: the index documents a method `wait_until_tick` as "Waits for
the next clock tick.", a struct `ClockIterRelative` as returning a
relative time instead of `ClockIter` time, and a `Timer` method
`has_fired` as returning true if the timer has fired since the last time
passed to `reset()`. -/
theorem c6_doc_strings :
    (itemRecords.any (fun it => it.name == "wait_until_tick" && it.kind == 11 &&
      it.desc == "Waits for the next clock tick.")) = true ∧
    (itemRecords.any (fun it => it.name == "ClockIterRelative" && it.kind == 3 &&
      it.desc == "Similar to `ClockIter`, but returns a relative time instead.")) = true ∧
    (itemRecords.any (fun it => it.name == "has_fired" && it.kind == 11 &&
      it.parent == some (3 : Nat) &&
      it.desc == "Returns true if the timer has fired since the last time passed to\n`reset()`.")) = true := by
  decide

/-- Claim C7: after the assignment of the index, the only remaining
statement of the script is the single call `initSearch(searchIndex)`,
whose argument is the very variable the index was assigned into. -/
theorem c7_handoff :
    script.length = 3 ∧
    script.get? 1 = some (Stmt.indexAssign "searchIndex" "ticktock" searchIndexTicktock) ∧
    script.drop 2 = [Stmt.callStmt "initSearch" "searchIndex"] :=
  ⟨rfl, rfl, rfl⟩

/-- Claim C8: the source file is only the three statements (declaration,
index assignment, `initSearch` call) plus README text; every item record
is flat — strings for name, path and doc, a null-or-number parent, a
null-or-flat signature — and no array nested inside a record, nor any of
its elements, has item-record shape. -/
theorem c8_data_only :
    script = [Stmt.varDecl "searchIndex" (Json.obj []),
      Stmt.indexAssign "searchIndex" "ticktock" searchIndexTicktock,
      Stmt.callStmt "initSearch" "searchIndex"] ∧
    ticktockItems.all isFlatItem = true ∧
    (ticktockItems.all (fun it => (nestedArrays it).all (fun a =>
      !(isItemShape a) && (match a with
        | Json.arr l => l.all (fun e => !(isItemShape e))
        | _ => true)))) = true :=
  ⟨rfl, by decide, by decide⟩

/-- Claim C9: an item record has a non-null parent index exactly when its
kind code is 11 (a method), every non-null parent index is a valid index
into the 4-element `paths` array, and every `paths` entry is a struct
(kind 3). -/
theorem c9_parent_method_invariant :
    (itemRecords.all (fun it =>
      (it.parent.isSome == (it.kind == 11)) &&
      (match it.parent with
        | some p => (pathEntries.get? p).isSome
        | none => true))) = true ∧
    pathEntries.length = 4 ∧
    pathEntries.all (fun pe => pe.kind == 3) = true := by
  decide

/-- Claim C10: there are four records named `new` or
`new_with_start_time`, and each lists `duration` as its first input type
and has an output type equal to the lowercase name of the struct selected
by its parent index. -/
theorem c10_constructor_signatures :
    (itemRecords.filter (fun it =>
      it.name == "new" || it.name == "new_with_start_time")).length = 4 ∧
    (itemRecords.all (fun it =>
      if it.name == "new" || it.name == "new_with_start_time" then
        match it.sig, it.parent with
        | some sg, some p =>
            sg.inputs.head? == some "duration" &&
            ((pathEntries.get? p).map (fun pe => strLower pe.name) == sg.output)
        | _, _ => false
      else true)) = true := by
  decide
